import Mathlib

/-!
Verification of the todo chat-bot script (src/scripts/todos.js).

The script maps three chat commands to three filesystem operations on a
flat directory of todo files:
  * list   — fs.readdir over DATA_DIR, then one fs.readFile per entry,
  * add    — one fs.writeFile of the content under a fresh uuid filename,
  * remove — one fs.unlink of the file named by the captured id.

The embedding below models the storage directory as an association list
from filename (within DATA_DIR, no extension) to file content, and each
handler as a pure function from its inputs, the injected I/O outcomes
(error-or-success of readdir, readFile, writeFile, unlink) and the prior
directory state, to the directory state afterwards, the list of chat
replies emitted, and the trace of I/O calls issued (paths read, writes
attempted, paths unlinked).  Replies within a list operation are recorded
in the order the reads are issued, one fixed completion schedule of the
asynchronous callbacks.
-/

set_option autoImplicit false

namespace Todos

/-- The directory state: one entry per file, filename paired with content. -/
abbrev Store := List (String × String)

/-- `const DATA_DIR = 'todos'` in the script. -/
def DATA_DIR : String := "todos"

/-- `path.join(a, b)` for the simple two-segment uses in the script. -/
def pathJoin (a b : String) : String := a ++ "/" ++ b

/-- The apostrophe character, spelled via its code point. -/
def apos : String := ⟨[Char.ofNat 39]⟩

/-- Reply when `fs.readdir` reports an error. -/
def dirErrMsg : String := "Oh no... I couldn" ++ apos ++ "t look for todos..."

/-- Reply when the directory has no files. -/
def emptyMsg : String := "The list is empty!"

/-- Reply when an individual `fs.readFile` reports an error. -/
def readErrMsg : String := "Uh oh! Had trouble opening a todo..."

/-- Reply for one successfully read todo file: `<itemID>: <item>`. -/
def readOkMsg (file data : String) : String := file ++ ": " ++ data

/-- Reply when `fs.writeFile` reports an error. -/
def writeErrMsg : String := "Oh no... I couldn" ++ apos ++ "t write the todo file..."

/-- Reply when the write succeeds. -/
def addOkMsg (todo : String) : String := "OK! I added " ++ todo ++ " to the todo list"

/-- Reply when `fs.unlink` reports an error. -/
def notFoundMsg (id : String) : String := "Couldn" ++ apos ++ "t find " ++ id

/-- Reply when the unlink succeeds. -/
def removedMsg (id : String) : String := "OK! Removed " ++ id

/-- Whether the directory holds a file with the given name. -/
def hasFile (st : Store) (nm : String) : Bool := st.any (fun p => p.1 == nm)

/-- Effect of `fs.writeFile` on the directory: create the file, or replace
its content when a file of that name already exists. -/
def fsWrite (st : Store) (nm content : String) : Store :=
  if hasFile st nm then st.map (fun p => if p.1 == nm then (nm, content) else p)
  else st ++ [(nm, content)]

/-- Effect of `fs.unlink` on the directory: drop the file of that name. -/
def fsUnlink (st : Store) (nm : String) : Store := st.filter (fun p => p.1 != nm)

/-- Outcome of the list handler: the replies emitted and the paths passed
to `fs.readFile`. -/
structure ListOutcome where
  replies : List String
  reads : List String
deriving DecidableEq

/-- One `fs.readFile` callback of the list handler: on error reply with
`readErrMsg`, otherwise with `file + ': ' + data`.  `readRes` gives each
path's injected outcome (`none` = error, `some data` = content read). -/
def readFileStep (readRes : String → Option String) (file : String) : String :=
  match readRes (pathJoin DATA_DIR file) with
  | none => readErrMsg
  | some data => readOkMsg file data

/-- The `show my todo list` handler.  `dirRes` is the injected outcome of
`fs.readdir` (`none` = error, `some files` = the directory entries):
on error one `dirErrMsg` reply and no reads; on an empty listing one
`emptyMsg` reply and no reads; otherwise one `fs.readFile` per entry,
each producing its own reply via its callback. -/
def listHandler (dirRes : Option (List String)) (readRes : String → Option String) :
    ListOutcome :=
  match dirRes with
  | none => ⟨[dirErrMsg], []⟩
  | some files =>
    if files.length = 0 then ⟨[emptyMsg], []⟩
    else ⟨files.map (readFileStep readRes), files.map (pathJoin DATA_DIR)⟩

/-- Outcome of the add handler: directory afterwards, replies emitted, and
the write attempts issued as (path, data, encoding) triples. -/
structure AddOutcome where
  store : Store
  replies : List String
  writes : List (String × String × String)
deriving DecidableEq

/-- The `add <item> to my todo list` handler.  `newId` stands for the
value of `uuid.v4()` generated by the handler; `writeErr` injects the
outcome of the single `fs.writeFile` call.  On error the reply is
`writeErrMsg` and the directory is untouched; on success the file named
by the id is written and the reply names the content. -/
def addHandler (todo newId : String) (writeErr : Bool) (st : Store) : AddOutcome :=
  let filename := pathJoin DATA_DIR newId
  if writeErr then ⟨st, [writeErrMsg], [(filename, todo, "ascii")]⟩
  else ⟨fsWrite st newId todo, [addOkMsg todo], [(filename, todo, "ascii")]⟩

/-- Outcome of the remove handler: directory afterwards, replies emitted,
and the paths passed to `fs.unlink`. -/
structure RemoveOutcome where
  store : Store
  replies : List String
  unlinks : List String
deriving DecidableEq

/-- The `<itemID> is done` handler.  `fs.unlink` succeeds exactly when the
file exists and no other I/O error (`ioErr`) is injected; any failure
produces the same `notFoundMsg` reply and leaves the directory untouched. -/
def removeHandler (id : String) (ioErr : Bool) (st : Store) : RemoveOutcome :=
  let filename := pathJoin DATA_DIR id
  if hasFile st id && !ioErr then ⟨fsUnlink st id, [removedMsg id], [filename]⟩
  else ⟨st, [notFoundMsg id], [filename]⟩

/-- A hexadecimal digit, either case: the `0-9a-f` ranges of the regex
character class together with the `i` flag. -/
def isHexDigitChar (c : Char) : Bool :=
  decide (('0' ≤ c ∧ c ≤ '9') ∨ ('a' ≤ c ∧ c ≤ 'f') ∨ ('A' ≤ c ∧ c ≤ 'F'))

/-- A character matched by the regex class `[0-9a-f\-]` under the `i` flag. -/
def isHexDashChar (c : Char) : Bool := isHexDigitChar c || c == '-'

/-- The dispatch guard of the remove handler, from the capture group of
`robot.respond(/([0-9a-f\-]{36}) is done$/i)`: the id is exactly 36
characters, each a hex digit (either case) or a hyphen. -/
def removeDispatch (id : String) : Bool :=
  id.length == 36 && id.data.all isHexDashChar

/-- Modelled from the spec's words: the 36-character 8-4-4-4-12 pattern —
8, 4, 4, 4 and 12 hex digits separated by hyphens (so hyphens exactly at
positions 8, 13, 18 and 23), case-insensitive. -/
def specUuidShape (id : String) : Bool :=
  id.length == 36 &&
  (List.range 36).all (fun i =>
    if i == 8 || i == 13 || i == 18 || i == 23 then id.data.getD i 'x' == '-'
    else isHexDigitChar (id.data.getD i 'x'))

/-- A path that names a direct child of the storage directory: the
directory name, a separator, then a nonempty component free of path
separators and of dots (hence neither `.` nor `..` nor any nested path). -/
def isDirectChildPath (p : String) : Prop :=
  ∃ nm : String, p = pathJoin DATA_DIR nm ∧ nm.length ≠ 0 ∧
    ∀ c ∈ nm.data, c ≠ '/' ∧ c ≠ Char.ofNat 92 ∧ c ≠ '.'

/-- A 36-character string of hyphens only: inside the regex class, yet not
of the 8-4-4-4-12 shape. -/
def dashes36 : String := ⟨List.replicate 36 '-'⟩

/-- A well-formed uuid-shaped id used as a concrete witness input. -/
def uuidEx : String := "0123abcd-4567-89ef-0123-456789abcdef"

/-- A read oracle for witnesses: `todos/f1` reads as `milk`, every other
path errors. -/
def rEx : String → Option String :=
  fun p => if p == pathJoin DATA_DIR "f1" then some "milk" else none

end Todos

namespace Todos

/-- Auxiliary: filtering away a name that no entry carries is the identity. -/
theorem filter_ne_of_not_hasFile (st : Store) (id : String)
    (h : hasFile st id = false) : st.filter (fun p => p.1 != id) = st := by
  induction st with
  | nil => rfl
  | cons a tl ih =>
    simp only [hasFile, List.any_cons, Bool.or_eq_false_iff] at h
    simp only [List.filter_cons, bne, h.1, Bool.not_false, if_true]
    exact congrArg (a :: ·) (ih h.2)

/-- Auxiliary: a character of the regex class is not a path separator,
not a backslash and not a dot. -/
theorem isHexDashChar_no_sep (c : Char) (h : isHexDashChar c = true) :
    c ≠ '/' ∧ c ≠ Char.ofNat 92 ∧ c ≠ '.' := by
  refine ⟨?_, ?_, ?_⟩ <;> rintro rfl <;> revert h <;> decide

/-- C3: when directory enumeration fails, the list handler emits exactly
one `dirErrMsg` reply, issues no file reads, and emits no item lines and
no per-file error messages, whatever the read oracle would have answered. -/
theorem list_dir_error_single_reply (r : String → Option String) :
    listHandler none r = ⟨[dirErrMsg], []⟩ := rfl

/-- C7: on a directory with zero entries, the list handler emits exactly
one `emptyMsg` reply and no item lines, and issues no file reads. -/
theorem list_empty_dir_single_reply (r : String → Option String) :
    listHandler (some []) r = ⟨[emptyMsg], []⟩ := rfl

/-- C1 counterexample: a string of 36 hyphens is matched by the dispatch
pattern of the remove handler although it is not of the 8-4-4-4-12 shape,
so the remove operation is not dispatched only for 8-4-4-4-12 ids. -/
theorem remove_dispatch_shape_counterexample :
    removeDispatch dashes36 = true ∧ specUuidShape dashes36 = false := by
  decide

/-- C1 (amended): the remove operation is dispatched exactly for ids of 36
characters that are hex digits (either case) or hyphens; in particular
every id of the 8-4-4-4-12 shape is dispatched, but the grouping itself is
not enforced. -/
theorem remove_dispatch_accepts_uuid (id : String) (h : specUuidShape id = true) :
    removeDispatch id = true := by
  rw [specUuidShape, Bool.and_eq_true] at h
  rw [removeDispatch, Bool.and_eq_true]
  refine ⟨h.1, ?_⟩
  have hlen : id.data.length = 36 := by
    have hl : id.length = 36 := by simpa using h.1
    exact hl
  rw [List.all_eq_true]
  intro c hc
  obtain ⟨i, hi, hgi⟩ := List.mem_iff_getElem.mp hc
  have hi36 : i < 36 := hlen ▸ hi
  have hp := List.all_eq_true.mp h.2 i (List.mem_range.mpr hi36)
  rw [List.getD_eq_getElem id.data 'x' hi, hgi] at hp
  by_cases hpos : (i == 8 || i == 13 || i == 18 || i == 23) = true
  · rw [if_pos hpos] at hp
    have : c = '-' := by simpa using hp
    subst this
    decide
  · rw [if_neg hpos] at hp
    rw [isHexDashChar, hp, Bool.true_or]

/-- C1 witness: a concrete 8-4-4-4-12 id is dispatched. -/
theorem remove_dispatch_accepts_uuid_witness : removeDispatch uuidEx = true :=
  remove_dispatch_accepts_uuid uuidEx (by decide)

/-- C10: for every id accepted by the dispatch pattern, the remove handler
passes to `fs.unlink` exactly the path `DATA_DIR/id`, and that path names a
direct child of the storage directory: the id is nonempty and contains no
path separator, no backslash and no dot, so no file outside the storage
directory can be deleted. -/
theorem remove_unlink_path_safe (id : String) (h : removeDispatch id = true)
    (e : Bool) (st : Store) :
    (removeHandler id e st).unlinks = [pathJoin DATA_DIR id] ∧
    isDirectChildPath (pathJoin DATA_DIR id) := by
  rw [removeDispatch, Bool.and_eq_true] at h
  constructor
  · rw [removeHandler]
    by_cases hb : (hasFile st id && !e) = true
    · rw [if_pos hb]
    · rw [if_neg hb]
  · refine ⟨id, rfl, ?_, ?_⟩
    · have hlen : id.length = 36 := by simpa using h.1
      omega
    · intro c hc
      exact isHexDashChar_no_sep c (List.all_eq_true.mp h.2 c hc)

/-- C10 witness: the safety property at a concrete dispatched id. -/
theorem remove_unlink_path_safe_witness :
    (removeHandler uuidEx false []).unlinks = [pathJoin DATA_DIR uuidEx] ∧
    isDirectChildPath (pathJoin DATA_DIR uuidEx) :=
  remove_unlink_path_safe uuidEx (by decide) false []

/-- C2: from any starting directory, adding some content under a fresh id
and then removing exactly that id returns the directory to its prior list
of files, same filenames and same contents.  Freshness of the id models
the uniqueness of the generated uuid. -/
theorem add_then_remove_roundtrip (st : Store) (todo id : String)
    (hfresh : hasFile st id = false) :
    (removeHandler id false (addHandler todo id false st).store).store = st := by
  have hadd : (addHandler todo id false st).store = st ++ [(id, todo)] := by
    simp [addHandler, fsWrite, hfresh]
  have hhas : hasFile (st ++ [(id, todo)]) id = true := by
    simp [hasFile]
  rw [hadd]
  simp only [removeHandler, hhas, Bool.not_false, Bool.and_self, if_true]
  rw [fsUnlink, List.filter_append, filter_ne_of_not_hasFile st id hfresh]
  simp

/-- C2 witness: the round trip at a concrete directory, content and id. -/
theorem add_then_remove_roundtrip_witness :
    (removeHandler uuidEx false (addHandler "buy milk" uuidEx false []).store).store = [] :=
  add_then_remove_roundtrip [] "buy milk" uuidEx (by decide)

/-- C5: when the write fails, the add handler emits exactly one
`writeErrMsg` reply, issues exactly one write attempt (no retry), and the
directory is unchanged; when the write succeeds under a fresh id, the
directory gains exactly one new file. -/
theorem add_write_failure_no_file (todo id : String) (st : Store)
    (hfresh : hasFile st id = false) :
    ((addHandler todo id true st).replies = [writeErrMsg] ∧
      (addHandler todo id true st).store = st ∧
      (addHandler todo id true st).writes.length = 1) ∧
    ((addHandler todo id false st).store = st ++ [(id, todo)] ∧
      (addHandler todo id false st).store.length = st.length + 1) := by
  refine ⟨⟨rfl, rfl, rfl⟩, ?_, ?_⟩
  · simp [addHandler, fsWrite, hfresh]
  · simp [addHandler, fsWrite, hfresh]

/-- C5 witness: write failure and success on a concrete directory. -/
theorem add_write_failure_no_file_witness :
    (((addHandler "buy milk" uuidEx true []).replies = [writeErrMsg] ∧
      (addHandler "buy milk" uuidEx true []).store = ([] : Store) ∧
      (addHandler "buy milk" uuidEx true []).writes.length = 1) ∧
    ((addHandler "buy milk" uuidEx false []).store = ([] : Store) ++ [(uuidEx, "buy milk")] ∧
      (addHandler "buy milk" uuidEx false []).store.length = ([] : Store).length + 1)) :=
  add_write_failure_no_file "buy milk" uuidEx [] (by decide)

/-- C6: for every dispatched id, a failed deletion (missing file or any
injected I/O error alike) yields the single reply `notFoundMsg id` and an
unchanged directory, while a successful deletion yields the single reply
`removedMsg id` and removes exactly the entries named `id`, keeping every
other file. -/
theorem remove_reply_and_state (id : String) (e : Bool) (st : Store)
    (_hdisp : removeDispatch id = true) :
    ((hasFile st id = false ∨ e = true) →
      (removeHandler id e st).replies = [notFoundMsg id] ∧
      (removeHandler id e st).store = st) ∧
    (hasFile st id = true ∧ e = false →
      (removeHandler id e st).replies = [removedMsg id] ∧
      (removeHandler id e st).store = st.filter (fun p => p.1 != id)) := by
  constructor
  · intro hfail
    have hcond : (hasFile st id && !e) = false := by
      rcases hfail with h | h <;> simp [h]
    simp [removeHandler, hcond]
  · rintro ⟨h1, h2⟩
    subst h2
    simp [removeHandler, h1, fsUnlink]

/-- C6 witness: removing a present id at a concrete directory. -/
theorem remove_reply_and_state_witness :
    (removeHandler uuidEx false [(uuidEx, "a")]).replies = [removedMsg uuidEx] ∧
    (removeHandler uuidEx false [(uuidEx, "a")]).store =
      ([(uuidEx, "a")] : Store).filter (fun p => p.1 != uuidEx) :=
  (remove_reply_and_state uuidEx false [(uuidEx, "a")] (by decide)).2 ⟨by decide, rfl⟩

/-- C8: the add handler, given the freshly generated id, issues exactly one
write, of the content under the path `DATA_DIR/id` (the bare id, no
extension) with the `ascii` encoding; on success the new file holds the
content under that id and the single reply is `addOkMsg todo`, which
contains the original content text. -/
theorem add_success_writes_id_file (todo id : String) (st : Store)
    (hfresh : hasFile st id = false) :
    (addHandler todo id false st).writes = [(pathJoin DATA_DIR id, todo, "ascii")] ∧
    (addHandler todo id false st).store = st ++ [(id, todo)] ∧
    (addHandler todo id false st).replies = [addOkMsg todo] := by
  refine ⟨rfl, ?_, rfl⟩
  simp [addHandler, fsWrite, hfresh]

/-- C8 witness: a concrete successful add. -/
theorem add_success_writes_id_file_witness :
    (addHandler "feed cat" uuidEx false []).writes =
      [(pathJoin DATA_DIR uuidEx, "feed cat", "ascii")] ∧
    (addHandler "feed cat" uuidEx false []).store = ([] : Store) ++ [(uuidEx, "feed cat")] ∧
    (addHandler "feed cat" uuidEx false []).replies = [addOkMsg "feed cat"] :=
  add_success_writes_id_file "feed cat" uuidEx [] (by decide)

/-- C4: over a non-empty directory the list handler emits one reply per
entry, and the reply at each position depends only on that entry's own
read outcome: a failing read yields `readErrMsg` at that position, a
successful read yields its own `readOkMsg` line, independently of how the
other entries fare. -/
theorem list_per_file_independent (files : List String) (r : String → Option String)
    (hne : files ≠ []) (i : Nat) (hi : i < files.length) :
    (listHandler (some files) r).replies.length = files.length ∧
    (r (pathJoin DATA_DIR files[i]) = none →
      (listHandler (some files) r).replies[i]? = some readErrMsg) ∧
    (∀ d, r (pathJoin DATA_DIR files[i]) = some d →
      (listHandler (some files) r).replies[i]? = some (readOkMsg files[i] d)) := by
  have hlen0 : ¬ files.length = 0 := by
    simpa [List.length_eq_zero] using hne
  have hL : (listHandler (some files) r).replies = files.map (readFileStep r) := by
    simp [listHandler, hlen0]
  refine ⟨by simp [hL], ?_, ?_⟩
  · intro hnone
    rw [hL, List.getElem?_map, List.getElem?_eq_getElem hi]
    simp [readFileStep, hnone]
  · intro d hd
    rw [hL, List.getElem?_map, List.getElem?_eq_getElem hi]
    simp [readFileStep, hd]

/-- C4 witness: two concrete files, the second read failing, the first
still answered on its own. -/
theorem list_per_file_independent_witness :
    (listHandler (some ["f1", "f2"]) rEx).replies.length =
      (["f1", "f2"] : List String).length ∧
    (listHandler (some ["f1", "f2"]) rEx).replies[1]? = some readErrMsg :=
  ⟨(list_per_file_independent ["f1", "f2"] rEx (by decide) 1 (by decide)).1,
   (list_per_file_independent ["f1", "f2"] rEx (by decide) 1 (by decide)).2.1 (by decide)⟩

/-- C9: over a non-empty directory, every entry whose read succeeds with
content `d` produces at its own position exactly the reply
`<filename>: <d>`, and there is one reply per entry. -/
theorem list_success_reply_line (files : List String) (r : String → Option String)
    (hne : files ≠ []) (i : Nat) (hi : i < files.length) (d : String)
    (hd : r (pathJoin DATA_DIR files[i]) = some d) :
    (listHandler (some files) r).replies.length = files.length ∧
    (listHandler (some files) r).replies[i]? = some (readOkMsg files[i] d) := by
  have hlen0 : ¬ files.length = 0 := by
    simpa [List.length_eq_zero] using hne
  have hL : (listHandler (some files) r).replies = files.map (readFileStep r) := by
    simp [listHandler, hlen0]
  refine ⟨by simp [hL], ?_⟩
  rw [hL, List.getElem?_map, List.getElem?_eq_getElem hi]
  simp [readFileStep, hd]

/-- C9 witness: the successfully read concrete file yields its line. -/
theorem list_success_reply_line_witness :
    (listHandler (some ["f1", "f2"]) rEx).replies.length =
      (["f1", "f2"] : List String).length ∧
    (listHandler (some ["f1", "f2"]) rEx).replies[0]? = some (readOkMsg "f1" "milk") :=
  list_success_reply_line ["f1", "f2"] rEx (by decide) 0 (by decide) "milk" (by decide)

end Todos
